import Mathlib

/-!
Shallow embedding of the laydown React renderer
(`src/laydown-react/src/components/node-renderer.tsx`) together with the
inline-handler leading characters of the extended parsing options
(`src/unnamed/part_001`), and theorems checking the specification claims
about them.

Modelling conventions:
* React output is modelled by `RNode`: `elem tag attrs children` for a DOM
  element or a component (components are tagged by their name, e.g.
  "MathBlock", "CodeBlock"), `text` for a text child and `fragment` for a
  JSX fragment.  A prop whose JS value is `undefined` produces no entry in
  the attribute list, mirroring the emitted output; React `key` props are
  reconciliation bookkeeping, not output, and are not modelled.  CSS-module
  class names (`styles[...]`) are modelled by their key strings and the
  bundled icon asset by the constant `linkIcon`.
* JS nullable values are `Option`; truthiness of a nullable string is
  `jsTruthy` (both `undefined` and `""` are falsy); `a ?? b` is
  `jsNullish a b`; `s.split` with a one-or-more-whitespace separator is
  `jsSplitWs`.
* Collaborators imported by the renderer but not present under `src/`
  (`potentiallyUnsafe`, `parse`/`deepFilterHtmlNode`, `replaceChildren`,
  `handleHtmlElementLink`, `deepFilterStringChildren`, `JSON.stringify`)
  are abstract function parameters gathered in `Externals`; theorems
  quantify over them.
* `customData` is the closed `CustomData` type; by the data-model
  invariant a node's variant is consistent with its `type`.  On a variant
  the source would only reach by violating that invariant, the model
  returns what the source produces on a well-typed-but-empty object.
-/

/-- A rendered React node: element/component, text, or fragment. -/
inductive RNode where
  | text (s : String)
  | elem (tag : String) (attrs : List (String × String)) (children : List RNode)
  | fragment (children : List RNode)

/-- An optional JSX prop: present exactly when the JS value is defined. -/
def optAttr (k : String) : Option String → List (String × String)
  | some v => [(k, v)]
  | none => []

/-- Embedding of a nullable string as JSX children: `null` renders nothing. -/
def optText : Option String → List RNode
  | some s => [RNode.text s]
  | none => []

/-- JS nullish coalescing `a ?? b` on nullable values. -/
def jsNullish {α : Type} : Option α → Option α → Option α
  | some v, _ => some v
  | none, b => b

/-- JS truthiness of a nullable string: `undefined` and `""` are falsy. -/
def jsTruthy : Option String → Bool
  | some s => s != ""
  | none => false

/-- JS pattern `if (x) y = x` on a nullable string: kept only when truthy. -/
def keepTruthy : Option String → Option String
  | some s => if s != "" then some s else none
  | none => none

/-- JS optional call with fallback: `esc?.(s) ?? s`. -/
def applyEsc (esc : Option (String → String)) (s : String) : String :=
  match esc with
  | some f => f s
  | none => s

/-- Helper for `jsSplitWs`: walks the characters, accumulating the current
piece and a flag telling whether the walk is inside a whitespace run. -/
def jsSplitWsGo : List Char → String → Bool → List String
  | [], cur, inSep => if inSep then [cur, ""] else [cur]
  | c :: rest, cur, inSep =>
    if c.isWhitespace then jsSplitWsGo rest cur true
    else if inSep then cur :: jsSplitWsGo rest (String.singleton c) false
    else jsSplitWsGo rest (cur.push c) false

/-- JS `s.split` on a one-or-more-whitespace separator pattern: pieces
between maximal whitespace runs, including an empty leading piece when the
string starts with whitespace and an empty trailing piece when it ends
with whitespace. -/
def jsSplitWs (s : String) : List String :=
  jsSplitWsGo s.data "" false

/-- JS `href.replace` of an optional single leading hash with nothing. -/
def stripLeadingHash (s : String) : String :=
  match s.data with
  | '#' :: rest => String.mk rest
  | _ => s

/-- The type-dependent auxiliary payload of a node (`customData`).
`absent` models a JS `undefined` payload; the `templateParams` payload is
opaque (its shape lives outside `src/`). -/
inductive CustomData where
  | absent
  | tableCell (isHeader : Bool) (align : Option String)
  | htmlParagraph (startTag endTag tagName : Option String)
  | templateParams (payload : String)
deriving DecidableEq

/-- The per-node fields of an extended tree node read by the renderer. -/
structure NodeData where
  type : String
  literal : Option String := none
  destination : Option String := none
  title : Option String := none
  info : Option String := none
  level : Nat := 0
  listType : Option String := none
  listTight : Bool := false
  listStart : Option Int := none
  customData : CustomData := .absent

/-- An extended tree node: its data plus the non-owning parent
back-reference used for ancestry queries. -/
inductive ENode where
  | node (data : NodeData) (parent : Option ENode)

/-- The field record of a node. -/
def ENode.data : ENode → NodeData
  | .node d _ => d

/-- The parent back-reference of a node. -/
def ENode.parent : ENode → Option ENode
  | .node _ p => p

/-- JS `node.parent?.parent`. -/
def ENode.grandparent (n : ENode) : Option ENode :=
  n.parent.bind ENode.parent

/-- The scope-aware annotation table consulted during rendering; only its
`check` operation is visible to this file (the store lives outside `src/`). -/
structure MacroStore where
  check : String → String → Option String

/-- The context handed to every render function. -/
structure LaydownRenderingContext where
  macroStore : MacroStore
  navHref : Option String := none

/-- Rendering options; the constructor of `LaydownNodeRenderer` defaults
`softbreak` to a newline.  `templateHandler` is modelled as taking the
template payload (the source hands it the payload together with the ambient
options; the options argument is the ambient record and is left implicit
here). -/
structure ReactRenderingOptions where
  softbreak : String := "\n"
  safe : Bool := false
  esc : Option (String → String) := none
  parseLink : Option (String → String) := none
  templateHandler : Option (CustomData → RNode) := none

/-- Result shape of `deepFilterHtmlNode(parse(...))`: a string, a single
element, or an array of elements. -/
inductive HtmlParsed where
  | str (s : String)
  | single (x : RNode)
  | arr (xs : List RNode)

/-- Embedding of an `HtmlParsed` value as JSX children. -/
def embedParsed : HtmlParsed → List RNode
  | .str s => [RNode.text s]
  | .single x => [x]
  | .arr xs => xs

/-- External collaborators imported by `node-renderer.tsx` from modules not
present under `src/`, kept abstract. -/
structure Externals where
  potentiallyUnsafe : Option String → Bool
  parseFilterHtml : String → HtmlParsed
  replaceChildren : RNode → List RNode → RNode
  handleHtmlElementLink : RNode → Option (String → String) → RNode
  deepFilterStringChildren : RNode → String
  jsonStringify : CustomData → String

/-- The bundled link icon asset, modelled by its path. -/
def linkIcon : String := "assets/icons/link.svg"

/-- The `TitleAnchor` component: an anchor-target span carrying the id,
plus a clickable permalink that is rendered only when `noClick` is off.
(`toHref` is the component's `to` prop; `to` is reserved here.) -/
def TitleAnchor (toHref id : String) (noClick : Bool) : RNode :=
  RNode.elem "div" [("className", "title-anchor")]
    [RNode.elem "div" []
      (RNode.elem "span" [("className", "title-id"), ("id", id)] [] ::
        (if noClick then []
         else [RNode.elem "a" [("href", toHref)]
            [RNode.elem "img" [("src", linkIcon)] []]]))]

/-- The shape of a per-type render function. -/
abbrev RenderFunction :=
  LaydownRenderingContext → ENode → List RNode → RNode

/-- The fallback template node used when no `templateHandler` is given. -/
def DefaultTemplateNode (jsonStringify : CustomData → String)
    (params : CustomData) : RNode :=
  RNode.fragment
    [RNode.elem "span" [] [RNode.text "Template Node"],
     RNode.elem "br" [] [],
     RNode.elem "span" [] [RNode.text (jsonStringify params)]]

namespace LaydownNodeRenderer

/-- `text`: the literal as a text child. -/
def text (_e : Externals) (_o : ReactRenderingOptions) : RenderFunction :=
  fun _ctx node _children => RNode.fragment (optText node.data.literal)

/-- `softbreak`: renders nothing. -/
def softbreak (_e : Externals) (_o : ReactRenderingOptions) : RenderFunction :=
  fun _ctx _node _children => RNode.fragment []

/-- `linebreak`. -/
def linebreak (_e : Externals) (_o : ReactRenderingOptions) : RenderFunction :=
  fun _ctx _node _children => RNode.elem "br" [] []

/-- `link`: drops the href when safe mode is on and the destination is
potentially unsafe; keeps the title only when truthy. -/
def link (e : Externals) (o : ReactRenderingOptions) : RenderFunction :=
  fun _ctx node children =>
    let href : Option String :=
      if !(o.safe && e.potentiallyUnsafe node.data.destination) then
        node.data.destination
      else none
    RNode.elem "a" (optAttr "href" href ++ optAttr "title" (keepTruthy node.data.title))
      children

/-- `image`: substitutes a visible notice when safe mode is on and the
destination is potentially unsafe; otherwise emits an img whose src is the
escaped destination run through the optional link parser. -/
def image (e : Externals) (o : ReactRenderingOptions) : RenderFunction :=
  fun _ctx node _children =>
    if o.safe && e.potentiallyUnsafe node.data.destination then
      RNode.elem "span" [] [RNode.text "[ERROR: POTENTIALLY UNSAFE LINK OMITTED]"]
    else
      let src := applyEsc o.esc (node.data.destination.getD "")
      RNode.elem "img" [("src", applyEsc o.parseLink src)] []

/-- `emph`. -/
def emph (_e : Externals) (_o : ReactRenderingOptions) : RenderFunction :=
  fun _ctx _node children => RNode.elem "em" [] children

/-- `strong`. -/
def strong (_e : Externals) (_o : ReactRenderingOptions) : RenderFunction :=
  fun _ctx _node children => RNode.elem "strong" [] children

/-- `html_inline`: the fixed omission notice in safe mode, otherwise the
parsed-and-filtered literal (empty string when absent). -/
def html_inline (e : Externals) (o : ReactRenderingOptions) : RenderFunction :=
  fun _ctx node _children =>
    if o.safe then RNode.fragment [RNode.text "[ERROR: RAW HTML OMITTED]"]
    else RNode.fragment (embedParsed (e.parseFilterHtml (node.data.literal.getD "")))

/-- `html_block`: delegates to `html_inline`. -/
def html_block (e : Externals) (o : ReactRenderingOptions) : RenderFunction :=
  fun ctx node children => html_inline e o ctx node children

/-- `code`. -/
def code (_e : Externals) (_o : ReactRenderingOptions) : RenderFunction :=
  fun _ctx node _children => RNode.elem "CodeSpan" [] (optText node.data.literal)

/-- The `info_words` computation of `code_block`: split the info string on
whitespace runs when it is truthy, else no words. -/
def infoWords : Option String → List String
  | some s => if s != "" then jsSplitWs s else []
  | none => []

/-- The `lang` computation of `code_block`: the escaped first info word
when the word list is non-empty and its first word is non-empty. -/
def codeBlockLang (esc : Option (String → String)) (info : Option String) :
    Option String :=
  match infoWords info with
  | w :: _ => if w.length > 0 then some (applyEsc esc w) else none
  | [] => none

/-- `code_block`: the escaped first info word (when non-empty) is the
language; "math"/"latex" render a math block, anything else a code block
tagged with the language. -/
def code_block (_e : Externals) (o : ReactRenderingOptions) : RenderFunction :=
  fun _ctx node _children =>
    let lang : Option String := codeBlockLang o.esc node.data.info
    if lang = some "math" ∨ lang = some "latex" then
      RNode.elem "MathBlock" [] (optText node.data.literal)
    else
      RNode.elem "CodeBlock" (optAttr "lang" lang) (optText node.data.literal)

/-- `paragraph`: unwrapped when the grandparent is a tight list. -/
def paragraph (_e : Externals) (_o : ReactRenderingOptions) : RenderFunction :=
  fun _ctx node children =>
    match node.grandparent with
    | some gp =>
      if gp.data.type = "list" then
        if gp.data.listTight then RNode.fragment children
        else RNode.elem "p" [] children
      else RNode.elem "p" [] children
    | none => RNode.elem "p" [] children

/-- `block_quote`. -/
def block_quote (_e : Externals) (_o : ReactRenderingOptions) : RenderFunction :=
  fun _ctx _node children => RNode.elem "blockquote" [] children

/-- `item`. -/
def item (_e : Externals) (_o : ReactRenderingOptions) : RenderFunction :=
  fun _ctx _node children => RNode.elem "li" [] children

/-- `list`: ul for bullet lists, else ol carrying a start attribute exactly
when the source start is defined and differs from 1. -/
def list (_e : Externals) (_o : ReactRenderingOptions) : RenderFunction :=
  fun _ctx node children =>
    let start0 : Option Int :=
      match node.data.listStart with
      | some n => if n ≠ 1 then some n else none
      | none => none
    if node.data.listType = some "bullet" then RNode.elem "ul" [] children
    else RNode.elem "ol" (optAttr "start" (start0.map toString)) children

/-- `heading`: consults the macro store (concrete tag first, generic
"heading" second) for the centering flag and the link-suppression flag, and
prepends a `TitleAnchor` for the enclosing section anchor. -/
def heading (_e : Externals) (_o : ReactRenderingOptions) : RenderFunction :=
  fun ctx node children =>
    let HeadingTag := "h" ++ toString node.data.level
    let href := ctx.navHref.getD "#null"
    let shouldAlignCenter :=
      (jsNullish (ctx.macroStore.check HeadingTag "align-center")
        (ctx.macroStore.check "heading" "align-center")).isSome
    RNode.elem HeadingTag
      (if shouldAlignCenter then [("style", "textAlign:center")] else [])
      (TitleAnchor href (stripLeadingHash href)
        (jsTruthy (jsNullish (ctx.macroStore.check HeadingTag "no-link")
          (ctx.macroStore.check "heading" "no-link"))) :: children)

/-- `thematic_break`. -/
def thematic_break (_e : Externals) (_o : ReactRenderingOptions) : RenderFunction :=
  fun _ctx _node _children => RNode.elem "hr" [] []

/-- `document`. -/
def document (_e : Externals) (_o : ReactRenderingOptions) : RenderFunction :=
  fun _ctx _node children => RNode.fragment children

/-- `math_block`. -/
def math_block (_e : Externals) (_o : ReactRenderingOptions) : RenderFunction :=
  fun _ctx node _children => RNode.elem "MathBlock" [] (optText node.data.literal)

/-- `math_inline`. -/
def math_inline (_e : Externals) (_o : ReactRenderingOptions) : RenderFunction :=
  fun _ctx node _children => RNode.elem "MathSpan" [] (optText node.data.literal)

/-- `table`: the first rendered child in head position, the remaining
children wrapped in one tbody (an empty children array contributes nothing
in head position). -/
def table (_e : Externals) (_o : ReactRenderingOptions) : RenderFunction :=
  fun _ctx _node children =>
    RNode.elem "table" []
      (children.take 1 ++ [RNode.elem "tbody" [] (children.drop 1)])

/-- `table_head`. -/
def table_head (_e : Externals) (_o : ReactRenderingOptions) : RenderFunction :=
  fun _ctx _node children =>
    RNode.elem "thead" [] [RNode.elem "tr" [] children]

/-- `table_row`. -/
def table_row (_e : Externals) (_o : ReactRenderingOptions) : RenderFunction :=
  fun _ctx _node children => RNode.elem "tr" [] children

/-- `table_cell`: th/td by the customData header flag, carrying its
alignment.  The fallback branch models a payload violating the
customData-consistency invariant, on which the source reads undefined
fields (falsy header flag, absent alignment). -/
def table_cell (_e : Externals) (_o : ReactRenderingOptions) : RenderFunction :=
  fun _ctx node children =>
    match node.data.customData with
    | .tableCell isHeader align =>
      RNode.elem (if isHeader then "th" else "td") (optAttr "align" align) children
    | _ => RNode.elem "td" [] children

/-- `html_paragraph`: re-parses the recorded tags and grafts the rendered
children into the parsed element(s). -/
def html_paragraph (e : Externals) (o : ReactRenderingOptions) : RenderFunction :=
  fun _ctx node children =>
    match node.data.customData with
    | .htmlParagraph startTag endTag tagName =>
      if !(startTag.isSome || tagName.isSome) then RNode.fragment children
      else
        let htmlString := startTag.getD "" ++ endTag.getD ""
        let parseInput :=
          if htmlString != "" then htmlString
          else if tagName.getD "" != "" then "<" ++ tagName.getD "" ++ ">"
          else ""
        match e.parseFilterHtml parseInput with
        | .str _ => RNode.fragment children
        | .arr [] => RNode.fragment children
        | .arr (x0 :: rest) =>
          RNode.fragment
            ((e.replaceChildren x0 children :: rest).map
              (fun x => e.handleHtmlElementLink x o.parseLink))
        | .single x =>
          e.handleHtmlElementLink (e.replaceChildren x children) o.parseLink
    | _ => RNode.fragment children

/-- `html_paragraph_text`: delegates to `text`. -/
def html_paragraph_text (e : Externals) (o : ReactRenderingOptions) : RenderFunction :=
  fun ctx node children => text e o ctx node children

/-- `template`: hands the payload to the configured handler (default
handler when none), nothing when the payload is undefined. -/
def template (e : Externals) (o : ReactRenderingOptions) : RenderFunction :=
  fun _ctx node _children =>
    match node.data.customData with
    | .absent => RNode.fragment []
    | cd =>
      match o.templateHandler with
      | some h => h cd
      | none => DefaultTemplateNode e.jsonStringify cd

/-- `emoji`: the literal (empty when absent) as text. -/
def emoji (_e : Externals) (_o : ReactRenderingOptions) : RenderFunction :=
  fun _ctx node _children => RNode.fragment [RNode.text (node.data.literal.getD "")]

/-- The method set of the `LaydownNodeRenderer` class, as the association
list consulted by the dynamic property lookup of `getRenderer`. -/
def rendererTable (e : Externals) (o : ReactRenderingOptions) :
    List (String × RenderFunction) :=
  [("text", text e o), ("softbreak", softbreak e o), ("linebreak", linebreak e o),
   ("link", link e o), ("image", image e o), ("emph", emph e o),
   ("strong", strong e o), ("html_inline", html_inline e o),
   ("html_block", html_block e o), ("code", code e o),
   ("code_block", code_block e o), ("paragraph", paragraph e o),
   ("block_quote", block_quote e o), ("item", item e o), ("list", list e o),
   ("heading", heading e o), ("thematic_break", thematic_break e o),
   ("document", document e o), ("math_block", math_block e o),
   ("math_inline", math_inline e o), ("table", table e o),
   ("table_head", table_head e o), ("table_row", table_row e o),
   ("table_cell", table_cell e o), ("html_paragraph", html_paragraph e o),
   ("html_paragraph_text", html_paragraph_text e o),
   ("template", template e o), ("emoji", emoji e o)]

end LaydownNodeRenderer

namespace LaydownReactRenderer

/-- `getRenderer`: the registered render function for the type, or a total
placeholder-producing function naming the missing type. -/
def getRenderer (e : Externals) (o : ReactRenderingOptions) (type : String) :
    RenderFunction :=
  match (LaydownNodeRenderer.rendererTable e o).lookup type with
  | some f => f
  | none => fun _ctx _node _children =>
      RNode.fragment [RNode.text ("[WARNING: Type " ++ type ++ "'s renderer not found]")]

/-- `stringify`: the literal for raw-HTML nodes, the deep-filtered children
text for headings and paragraphs, a thrown error (modelled by
`Except.error`) for every other type. -/
def stringify (e : Externals) (node : ENode) (children : List RNode) :
    Except String String :=
  if node.data.type = "html_block" ∨ node.data.type = "html_inline" then
    Except.ok (node.data.literal.getD "")
  else if node.data.type = "heading" ∨ node.data.type = "paragraph" then
    Except.ok (e.deepFilterStringChildren (RNode.fragment children))
  else Except.error "Method not implemented."

end LaydownReactRenderer

/-- Leading characters of the inline handler table of the extended parsing
options in `src/unnamed/part_001`, in source order. -/
def inlineHandlerChars : List Char := ['$', '@', ':']

/-- Each leading character owns at most one inline handler: the keys of the
inline handler table are pairwise distinct. -/
theorem inlineHandlerChars_nodup : inlineHandlerChars.Nodup := by decide

/-! Observables on rendered output, used to state the claims. -/

/-- The tag of an element node, if any. -/
def RNode.tagName : RNode → Option String
  | .elem t _ _ => some t
  | _ => none

/-- The value of an attribute on an element node, if present. -/
def RNode.attrVal (k : String) : RNode → Option String
  | .elem _ attrs _ => attrs.lookup k
  | _ => none

/-- The children list of a node. -/
def RNode.childList : RNode → List RNode
  | .elem _ _ cs => cs
  | .fragment cs => cs
  | .text _ => []

mutual
/-- Whether an element with the given tag occurs anywhere in the tree. -/
def containsElem (t : String) : RNode → Bool
  | .text _ => false
  | .elem tag _ cs => tag == t || containsElemL t cs
  | .fragment cs => containsElemL t cs
/-- `containsElem` over a list of trees. -/
def containsElemL (t : String) : List RNode → Bool
  | [] => false
  | c :: cs => containsElem t c || containsElemL t cs
end

mutual
/-- Whether a text node equal to the given string occurs in the tree. -/
def hasTextNode (s : String) : RNode → Bool
  | .text tx => tx == s
  | .elem _ _ cs => hasTextNodeL s cs
  | .fragment cs => hasTextNodeL s cs
/-- `hasTextNode` over a list of trees. -/
def hasTextNodeL (s : String) : List RNode → Bool
  | [] => false
  | c :: cs => hasTextNode s c || hasTextNodeL s cs
end

mutual
/-- Whether a span carrying the given id occurs in the tree. -/
def hasSpanWithId (id : String) : RNode → Bool
  | .text _ => false
  | .elem tag attrs cs =>
    (tag == "span" && attrs.lookup "id" == some id) || hasSpanWithIdL id cs
  | .fragment cs => hasSpanWithIdL id cs
/-- `hasSpanWithId` over a list of trees. -/
def hasSpanWithIdL (id : String) : List RNode → Bool
  | [] => false
  | c :: cs => hasSpanWithId id c || hasSpanWithIdL id cs
end

/-- The first whitespace-separated word of an optional info string: `none`
when the string is absent or its first word is empty. -/
def firstInfoWord : Option String → Option String
  | none => none
  | some s =>
    match jsSplitWs s with
    | [] => none
    | w :: _ => if w.length > 0 then some w else none

/-! Concrete fixtures shared by witnesses and counterexamples. -/

/-- A trivial instantiation of the external collaborators. -/
def e0 : Externals where
  potentiallyUnsafe := fun _ => false
  parseFilterHtml := fun s => .str s
  replaceChildren := fun n _ => n
  handleHtmlElementLink := fun n _ => n
  deepFilterStringChildren := fun _ => ""
  jsonStringify := fun _ => ""

/-- Externals whose denylist matches one concrete destination. -/
def eDeny : Externals :=
  { e0 with potentiallyUnsafe := fun d => d == some "javascript:alert(1)" }

/-- Default rendering options (safe mode off). -/
def o0 : ReactRenderingOptions := {}

/-- Options with safe mode on. -/
def oSafe : ReactRenderingOptions := { safe := true }

/-- A context with an empty macro store and no nav anchor. -/
def ctx0 : LaydownRenderingContext where
  macroStore := { check := fun _ _ => none }

/-- A bare text node. -/
def node0 : ENode := .node { type := "text" } none

/-- A raw-HTML inline node with a literal. -/
def nodeHtml : ENode := .node { type := "html_inline", literal := some "<b>x</b>" } none

/-- A table node (a structural-only type for `stringify`). -/
def nodeTable : ENode := .node { type := "table" } none

/-- A tight list node. -/
def tightList : ENode :=
  .node { type := "list", listType := some "bullet", listTight := true } none

/-- A loose list node. -/
def looseList : ENode :=
  .node { type := "list", listType := some "bullet", listTight := false } none

/-- A list item inside the tight list. -/
def itemTight : ENode := .node { type := "item" } (some tightList)

/-- A list item inside the loose list. -/
def itemLoose : ENode := .node { type := "item" } (some looseList)

/-- A paragraph whose grandparent is the tight list. -/
def paraTight : ENode := .node { type := "paragraph" } (some itemTight)

/-- A paragraph whose grandparent is the loose list. -/
def paraLoose : ENode := .node { type := "paragraph" } (some itemLoose)

/-- A bullet list node. -/
def ulNode : ENode := .node { type := "list", listType := some "bullet" } none

/-- An ordered list starting at 1. -/
def olNode1 : ENode :=
  .node { type := "list", listType := some "ordered", listStart := some 1 } none

/-- An ordered list starting at 5. -/
def olNode5 : ENode :=
  .node { type := "list", listType := some "ordered", listStart := some 5 } none

/-- A link node whose destination matches `eDeny`'s unsafe pattern. -/
def nodeEvil : ENode :=
  .node { type := "link", destination := some "javascript:alert(1)" } none

/-- A raw-HTML node carrying a script tag. -/
def nodeRawHtml : ENode := .node { type := "html_inline", literal := some "<b>" } none

/-- A code block whose info string is "math". -/
def nodeMathFence : ENode :=
  .node { type := "code_block", info := some "math", literal := some "x^2" } none

/-- A code block whose info string is "js highlight". -/
def nodeJsFence : ENode :=
  .node { type := "code_block", info := some "js highlight", literal := some "var x" } none

/-- A header table cell aligned right. -/
def cellHeaderNode : ENode :=
  .node { type := "table_cell", customData := .tableCell true (some "right") } none

/-- A level-2 heading node. -/
def nodeH2 : ENode := .node { type := "heading", level := 2 } none

/-- A store resolving "no-link" at scope "h2" to the defined value "". -/
def msEmptyNoLink : MacroStore where
  check := fun tag attr =>
    if tag == "h2" && attr == "no-link" then some "" else none

/-- Context over `msEmptyNoLink`. -/
def ctxEmptyNoLink : LaydownRenderingContext where
  macroStore := msEmptyNoLink

/-- A store with "no-link" values at both the concrete and generic scope. -/
def msBoth : MacroStore where
  check := fun tag attr =>
    if attr == "no-link" then
      (if tag == "h2" then some "tagval"
       else if tag == "heading" then some "genval" else none)
    else none

/-- Context over `msBoth`. -/
def ctxBoth : LaydownRenderingContext where
  macroStore := msBoth

/-! Claim theorems. -/

/-- C1: for every node type with no registered render function,
`getRenderer` returns a total (never-throwing) function producing the
visible placeholder that names the missing type, for every context, node
and children list — so a tree containing such a node still renders. -/
theorem claim_C1_unregistered_placeholder
    (e : Externals) (o : ReactRenderingOptions) (t : String)
    (h : (LaydownNodeRenderer.rendererTable e o).lookup t = none)
    (ctx : LaydownRenderingContext) (node : ENode) (children : List RNode) :
    LaydownReactRenderer.getRenderer e o t ctx node children =
      RNode.fragment [RNode.text ("[WARNING: Type " ++ t ++ "'s renderer not found]")] := by
  unfold LaydownReactRenderer.getRenderer
  rw [h]

/-- Witness for C1 at the concrete unregistered type "custom_widget". -/
theorem claim_C1_witness :
    LaydownReactRenderer.getRenderer e0 o0 "custom_widget" ctx0 node0 [] =
      RNode.fragment [RNode.text "[WARNING: Type custom_widget's renderer not found]"] :=
  (claim_C1_unregistered_placeholder e0 o0 "custom_widget" rfl ctx0 node0 []).trans rfl

/-- C3: `stringify` succeeds exactly on the textual node types heading,
paragraph, html_block and html_inline; for the raw-HTML types it returns
the node's literal (empty string when absent); on every other type it
throws (modelled by `Except.error`) instead of returning empty text. -/
theorem claim_C3_stringify_textual_only
    (e : Externals) (node : ENode) (children : List RNode) :
    ((∃ s, LaydownReactRenderer.stringify e node children = Except.ok s) ↔
      (node.data.type = "heading" ∨ node.data.type = "paragraph" ∨
       node.data.type = "html_block" ∨ node.data.type = "html_inline")) ∧
    ((node.data.type = "html_block" ∨ node.data.type = "html_inline") →
      LaydownReactRenderer.stringify e node children =
        Except.ok (node.data.literal.getD "")) ∧
    (¬(node.data.type = "heading" ∨ node.data.type = "paragraph" ∨
       node.data.type = "html_block" ∨ node.data.type = "html_inline") →
      LaydownReactRenderer.stringify e node children =
        Except.error "Method not implemented.") := by
  unfold LaydownReactRenderer.stringify
  by_cases h1 : node.data.type = "html_block" ∨ node.data.type = "html_inline" <;>
    by_cases h2 : node.data.type = "heading" ∨ node.data.type = "paragraph" <;>
      simp [h1, h2]

/-- Witness for C3: an html_inline node yields its literal, a table node
yields the thrown error. -/
theorem claim_C3_witness :
    LaydownReactRenderer.stringify e0 nodeHtml [] = Except.ok "<b>x</b>" ∧
    LaydownReactRenderer.stringify e0 nodeTable [] =
      Except.error "Method not implemented." :=
  ⟨(claim_C3_stringify_textual_only e0 nodeHtml []).2.1 (Or.inr rfl),
   (claim_C3_stringify_textual_only e0 nodeTable []).2.2 (by decide)⟩

/-- C5: a paragraph whose grandparent exists, is a list node and is flagged
tight renders its children directly with no wrapping block; every other
paragraph (no grandparent, grandparent not a list, or list not tight) is
wrapped in a block-level p container. -/
theorem claim_C5_paragraph_tightness
    (e : Externals) (o : ReactRenderingOptions) (ctx : LaydownRenderingContext)
    (node : ENode) (children : List RNode) :
    (∀ gp, node.grandparent = some gp → gp.data.type = "list" →
      gp.data.listTight = true →
      LaydownNodeRenderer.paragraph e o ctx node children =
        RNode.fragment children) ∧
    (node.grandparent = none →
      LaydownNodeRenderer.paragraph e o ctx node children =
        RNode.elem "p" [] children) ∧
    (∀ gp, node.grandparent = some gp → gp.data.type ≠ "list" →
      LaydownNodeRenderer.paragraph e o ctx node children =
        RNode.elem "p" [] children) ∧
    (∀ gp, node.grandparent = some gp → gp.data.listTight = false →
      LaydownNodeRenderer.paragraph e o ctx node children =
        RNode.elem "p" [] children) := by
  refine ⟨?_, ?_, ?_, ?_⟩
  · intro gp hgp hty hti
    simp [LaydownNodeRenderer.paragraph, hgp, hty, hti]
  · intro hgp
    simp [LaydownNodeRenderer.paragraph, hgp]
  · intro gp hgp hty
    simp [LaydownNodeRenderer.paragraph, hgp, hty]
  · intro gp hgp hti
    simp [LaydownNodeRenderer.paragraph, hgp, hti]

/-- Witness for C5: the tight-list paragraph unwraps, the loose-list one
wraps. -/
theorem claim_C5_witness :
    LaydownNodeRenderer.paragraph e0 o0 ctx0 paraTight [RNode.text "t"] =
      RNode.fragment [RNode.text "t"] ∧
    LaydownNodeRenderer.paragraph e0 o0 ctx0 paraLoose [RNode.text "t"] =
      RNode.elem "p" [] [RNode.text "t"] :=
  ⟨(claim_C5_paragraph_tightness e0 o0 ctx0 paraTight _).1 tightList rfl rfl rfl,
   (claim_C5_paragraph_tightness e0 o0 ctx0 paraLoose _).2.2.2 looseList rfl rfl⟩

/-- C6: bullet lists render as ul with no start attribute; any other list
renders as ol whose start attribute is present exactly when the source
start value is defined and differs from 1, carrying that value. -/
theorem claim_C6_list_start
    (e : Externals) (o : ReactRenderingOptions) (ctx : LaydownRenderingContext)
    (node : ENode) (children : List RNode) :
    (node.data.listType = some "bullet" →
      LaydownNodeRenderer.list e o ctx node children =
        RNode.elem "ul" [] children) ∧
    (node.data.listType ≠ some "bullet" →
      (LaydownNodeRenderer.list e o ctx node children).tagName = some "ol" ∧
      (LaydownNodeRenderer.list e o ctx node children).childList = children ∧
      (LaydownNodeRenderer.list e o ctx node children).attrVal "start" =
        (match node.data.listStart with
         | some n => if n = 1 then none else some (toString n)
         | none => none)) := by
  constructor
  · intro hb
    simp [LaydownNodeRenderer.list, hb]
  · intro hb
    refine ⟨by simp [LaydownNodeRenderer.list, hb, RNode.tagName],
      by simp [LaydownNodeRenderer.list, hb, RNode.childList], ?_⟩
    cases hs : node.data.listStart with
    | none => simp [LaydownNodeRenderer.list, hb, hs, RNode.attrVal, optAttr]
    | some n =>
      by_cases hn : n = 1 <;>
        simp [LaydownNodeRenderer.list, hb, hs, hn, RNode.attrVal, optAttr, List.lookup]

/-- Witness for C6: bullet list, ordered start=1 (no attribute) and
ordered start=5 (attribute "5"). -/
theorem claim_C6_witness :
    LaydownNodeRenderer.list e0 o0 ctx0 ulNode [] = RNode.elem "ul" [] [] ∧
    (LaydownNodeRenderer.list e0 o0 ctx0 olNode1 []).attrVal "start" = none ∧
    (LaydownNodeRenderer.list e0 o0 ctx0 olNode5 []).attrVal "start" = some "5" :=
  ⟨(claim_C6_list_start e0 o0 ctx0 ulNode []).1 rfl,
   ((claim_C6_list_start e0 o0 ctx0 olNode1 []).2 (by decide)).2.2.trans rfl,
   ((claim_C6_list_start e0 o0 ctx0 olNode5 []).2 (by decide)).2.2.trans rfl⟩

/-- C2 counterexample: with safe mode on and a destination matching the
unsafe pattern, the LINK output has its href dropped but contains no
omission notice anywhere — refuting the claim that the rendered link
output contains a visible omission notice. -/
theorem claim_C2_counterexample :
    oSafe.safe = true ∧
    eDeny.potentiallyUnsafe nodeEvil.data.destination = true ∧
    (LaydownNodeRenderer.link eDeny oSafe ctx0 nodeEvil
      [RNode.text "click"]).attrVal "href" = none ∧
    hasTextNode "[ERROR: POTENTIALLY UNSAFE LINK OMITTED]"
      (LaydownNodeRenderer.link eDeny oSafe ctx0 nodeEvil
        [RNode.text "click"]) = false := by
  refine ⟨rfl, rfl, rfl, ?_⟩
  have hlink : LaydownNodeRenderer.link eDeny oSafe ctx0 nodeEvil
      [RNode.text "click"] = RNode.elem "a" [] [RNode.text "click"] := rfl
  rw [hlink]
  simp [hasTextNode, hasTextNodeL]

/-- C2 (amended): with safe mode on and a destination matching the unsafe
pattern, the link renders with no href attribute and its children
unchanged, with no omission notice — the notice is produced by the IMAGE
renderer, which substitutes the span
"[ERROR: POTENTIALLY UNSAFE LINK OMITTED]"; whenever safe mode is off the
href is present verbatim. -/
theorem claim_C2_safe_link_image
    (e : Externals) (o : ReactRenderingOptions) (ctx : LaydownRenderingContext)
    (node : ENode) (children : List RNode) :
    (o.safe = true → e.potentiallyUnsafe node.data.destination = true →
      LaydownNodeRenderer.link e o ctx node children =
        RNode.elem "a" (optAttr "title" (keepTruthy node.data.title)) children ∧
      LaydownNodeRenderer.image e o ctx node children =
        RNode.elem "span" []
          [RNode.text "[ERROR: POTENTIALLY UNSAFE LINK OMITTED]"]) ∧
    (o.safe = false → ∀ d, node.data.destination = some d →
      (LaydownNodeRenderer.link e o ctx node children).attrVal "href" = some d) := by
  constructor
  · intro hs hu
    constructor
    · simp [LaydownNodeRenderer.link, hs, hu, optAttr]
    · simp [LaydownNodeRenderer.image, hs, hu]
  · intro hs d hd
    simp [LaydownNodeRenderer.link, hs, hd, RNode.attrVal, optAttr, List.lookup]

/-- Witness for C2: safe mode drops the href of the unsafe link and the
image substitutes the notice; without safe mode the href is verbatim. -/
theorem claim_C2_witness :
    LaydownNodeRenderer.link eDeny oSafe ctx0 nodeEvil [RNode.text "click"] =
      RNode.elem "a" [] [RNode.text "click"] ∧
    LaydownNodeRenderer.image eDeny oSafe ctx0 nodeEvil [] =
      RNode.elem "span" [] [RNode.text "[ERROR: POTENTIALLY UNSAFE LINK OMITTED]"] ∧
    (LaydownNodeRenderer.link eDeny o0 ctx0 nodeEvil []).attrVal "href" =
      some "javascript:alert(1)" :=
  ⟨((claim_C2_safe_link_image eDeny oSafe ctx0 nodeEvil
      [RNode.text "click"]).1 rfl rfl).1.trans rfl,
   ((claim_C2_safe_link_image eDeny oSafe ctx0 nodeEvil []).1 rfl rfl).2,
   (claim_C2_safe_link_image eDeny o0 ctx0 nodeEvil []).2 rfl
     "javascript:alert(1)" rfl⟩

/-- C8: for html_inline, safe mode yields the fixed notice
"[ERROR: RAW HTML OMITTED]" regardless of the literal; otherwise the
literal (empty string when absent) is parsed and rendered as HTML; and
html_block delegates exactly to html_inline. -/
theorem claim_C8_raw_html
    (e : Externals) (o : ReactRenderingOptions) (ctx : LaydownRenderingContext)
    (node : ENode) (children : List RNode) :
    (o.safe = true →
      LaydownNodeRenderer.html_inline e o ctx node children =
        RNode.fragment [RNode.text "[ERROR: RAW HTML OMITTED]"]) ∧
    (o.safe = false →
      LaydownNodeRenderer.html_inline e o ctx node children =
        RNode.fragment (embedParsed (e.parseFilterHtml
          (node.data.literal.getD "")))) ∧
    LaydownNodeRenderer.html_block e o ctx node children =
      LaydownNodeRenderer.html_inline e o ctx node children := by
  refine ⟨fun hs => ?_, fun hs => ?_, rfl⟩ <;>
    simp [LaydownNodeRenderer.html_inline, hs]

/-- Witness for C8: the raw-HTML node is replaced by the notice in safe
mode and parsed verbatim otherwise. -/
theorem claim_C8_witness :
    LaydownNodeRenderer.html_inline e0 oSafe ctx0 nodeRawHtml [] =
      RNode.fragment [RNode.text "[ERROR: RAW HTML OMITTED]"] ∧
    LaydownNodeRenderer.html_inline e0 o0 ctx0 nodeRawHtml [] =
      RNode.fragment [RNode.text "<b>"] :=
  ⟨(claim_C8_raw_html e0 oSafe ctx0 nodeRawHtml []).1 rfl,
   ((claim_C8_raw_html e0 o0 ctx0 nodeRawHtml []).2.1 rfl).trans rfl⟩

/-- With no escaper, the `code_block` language is exactly the first
whitespace-separated word of the info string (when non-empty). -/
theorem codeBlockLang_none (info : Option String) :
    LaydownNodeRenderer.codeBlockLang none info = firstInfoWord info := by
  cases info with
  | none => rfl
  | some s =>
    by_cases hs : s = ""
    · subst hs; rfl
    · simp only [LaydownNodeRenderer.codeBlockLang, LaydownNodeRenderer.infoWords,
        firstInfoWord]
      have hb : (s != "") = true := by simp [hs]
      rw [hb]
      cases h : jsSplitWs s with
      | nil => rfl
      | cons w ws => simp [applyEsc]

/-- C9: with no escaper configured, the first whitespace-separated word of
the info string is the language: "math"/"latex" render a MathBlock of the
literal, anything else a CodeBlock tagged with that language — no language
when the info string is absent or its first word is empty. -/
theorem claim_C9_code_block_language
    (e : Externals) (o : ReactRenderingOptions) (ctx : LaydownRenderingContext)
    (node : ENode) (children : List RNode) (hesc : o.esc = none) :
    (firstInfoWord node.data.info = some "math" ∨
     firstInfoWord node.data.info = some "latex" →
      LaydownNodeRenderer.code_block e o ctx node children =
        RNode.elem "MathBlock" [] (optText node.data.literal)) ∧
    (firstInfoWord node.data.info ≠ some "math" →
     firstInfoWord node.data.info ≠ some "latex" →
      LaydownNodeRenderer.code_block e o ctx node children =
        RNode.elem "CodeBlock" (optAttr "lang" (firstInfoWord node.data.info))
          (optText node.data.literal)) := by
  have hlang : LaydownNodeRenderer.codeBlockLang o.esc node.data.info =
      firstInfoWord node.data.info := by
    rw [hesc]
    exact codeBlockLang_none node.data.info
  constructor
  · intro hm
    simp [LaydownNodeRenderer.code_block, hlang, hm]
  · intro h1 h2
    simp [LaydownNodeRenderer.code_block, hlang, h1, h2]

/-- Witness for C9: info "math" renders a MathBlock, info "js highlight"
renders a CodeBlock tagged "js". -/
theorem claim_C9_witness :
    LaydownNodeRenderer.code_block e0 o0 ctx0 nodeMathFence [] =
      RNode.elem "MathBlock" [] [RNode.text "x^2"] ∧
    LaydownNodeRenderer.code_block e0 o0 ctx0 nodeJsFence [] =
      RNode.elem "CodeBlock" [("lang", "js")] [RNode.text "var x"] :=
  ⟨((claim_C9_code_block_language e0 o0 ctx0 nodeMathFence [] rfl).1
      (Or.inl (by decide))).trans rfl,
   ((claim_C9_code_block_language e0 o0 ctx0 nodeJsFence [] rfl).2
      (by decide) (by decide)).trans rfl⟩

/-- C10: the table renderer places exactly the first rendered child in the
head position and wraps the remaining children, in order, in a single
tbody; table_head wraps its children in one head row; a table_cell renders
as a header cell iff its customData header flag is set, carrying that
customData's alignment. -/
theorem claim_C10_table_shape
    (e : Externals) (o : ReactRenderingOptions) (ctx : LaydownRenderingContext)
    (node cellNode : ENode) (c0 : RNode) (rest cs children : List RNode)
    (isHeader : Bool) (align : Option String)
    (hcd : cellNode.data.customData = CustomData.tableCell isHeader align) :
    LaydownNodeRenderer.table e o ctx node (c0 :: rest) =
      RNode.elem "table" [] [c0, RNode.elem "tbody" [] rest] ∧
    LaydownNodeRenderer.table_head e o ctx node cs =
      RNode.elem "thead" [] [RNode.elem "tr" [] cs] ∧
    LaydownNodeRenderer.table_cell e o ctx cellNode children =
      RNode.elem (if isHeader then "th" else "td") (optAttr "align" align)
        children := by
  refine ⟨?_, rfl, ?_⟩
  · simp [LaydownNodeRenderer.table]
  · simp [LaydownNodeRenderer.table_cell, hcd]

/-- Witness for C10 at a two-child table and a right-aligned header cell. -/
theorem claim_C10_witness :
    LaydownNodeRenderer.table e0 o0 ctx0 nodeTable
      [RNode.text "h", RNode.text "r"] =
      RNode.elem "table" []
        [RNode.text "h", RNode.elem "tbody" [] [RNode.text "r"]] ∧
    LaydownNodeRenderer.table_cell e0 o0 ctx0 cellHeaderNode [] =
      RNode.elem "th" [("align", "right")] [] := by
  have h := claim_C10_table_shape e0 o0 ctx0 nodeTable cellHeaderNode
    (RNode.text "h") [RNode.text "r"] [] [] true (some "right") rfl
  exact ⟨h.1, h.2.2.trans rfl⟩

/-- C4 counterexample: at a concrete h2 heading whose store resolves
"no-link" at the concrete tag to the DEFINED value "", the rendered
heading still contains the clickable link affordance — refuting the claim
that any defined "no-link" value omits it (the source tests the resolved
value for truthiness, not definedness). -/
theorem claim_C4_counterexample :
    jsNullish (ctxEmptyNoLink.macroStore.check "h2" "no-link")
      (ctxEmptyNoLink.macroStore.check "heading" "no-link") = some "" ∧
    containsElem "a"
      (LaydownNodeRenderer.heading e0 o0 ctxEmptyNoLink nodeH2 []) = true := by
  constructor
  · rfl
  · have hh : LaydownNodeRenderer.heading e0 o0 ctxEmptyNoLink nodeH2 [] =
        RNode.elem "h2" [] [TitleAnchor "#null" "null" false] := rfl
    rw [hh]
    simp [TitleAnchor, containsElem, containsElemL]

/-- C4 (amended): the heading renderer resolves both macro flags by
consulting the concrete tag first and the generic "heading" scope second,
the first defined value winning and absence of both leaving the flag
unset; the anchor target span with the section id is always emitted; the
clickable link affordance is omitted exactly when the resolved "no-link"
value is truthy — a defined but empty-string value does not suppress it;
the heading is centered exactly when the resolved "align-center" value is
defined. -/
theorem claim_C4_heading_macro_flags
    (e : Externals) (o : ReactRenderingOptions) (ctx : LaydownRenderingContext)
    (node : ENode) (children : List RNode) :
    (∀ attr v,
      ctx.macroStore.check ("h" ++ toString node.data.level) attr = some v →
      jsNullish (ctx.macroStore.check ("h" ++ toString node.data.level) attr)
        (ctx.macroStore.check "heading" attr) = some v) ∧
    (∀ attr,
      ctx.macroStore.check ("h" ++ toString node.data.level) attr = none →
      jsNullish (ctx.macroStore.check ("h" ++ toString node.data.level) attr)
        (ctx.macroStore.check "heading" attr) =
        ctx.macroStore.check "heading" attr) ∧
    (LaydownNodeRenderer.heading e o ctx node children).tagName =
      some ("h" ++ toString node.data.level) ∧
    (LaydownNodeRenderer.heading e o ctx node children).attrVal "style" =
      (if (jsNullish
            (ctx.macroStore.check ("h" ++ toString node.data.level) "align-center")
            (ctx.macroStore.check "heading" "align-center")).isSome then
        some "textAlign:center" else none) ∧
    (LaydownNodeRenderer.heading e o ctx node children).childList =
      TitleAnchor (ctx.navHref.getD "#null")
        (stripLeadingHash (ctx.navHref.getD "#null"))
        (jsTruthy (jsNullish
          (ctx.macroStore.check ("h" ++ toString node.data.level) "no-link")
          (ctx.macroStore.check "heading" "no-link"))) :: children ∧
    (∀ toHref id, hasSpanWithId id (TitleAnchor toHref id true) = true ∧
      hasSpanWithId id (TitleAnchor toHref id false) = true) ∧
    (∀ toHref id, containsElem "a" (TitleAnchor toHref id true) = false ∧
      containsElem "a" (TitleAnchor toHref id false) = true) := by
  refine ⟨?_, ?_, ?_, ?_, ?_, ?_, ?_⟩
  · intro attr v h
    simp [jsNullish, h]
  · intro attr h
    simp [jsNullish, h]
  · simp [LaydownNodeRenderer.heading, RNode.tagName]
  · by_cases hc : (jsNullish
        (ctx.macroStore.check ("h" ++ toString node.data.level) "align-center")
        (ctx.macroStore.check "heading" "align-center")).isSome <;>
      simp [LaydownNodeRenderer.heading, hc, RNode.attrVal, List.lookup]
  · simp [LaydownNodeRenderer.heading, RNode.childList]
  · intro toHref id
    constructor <;>
      simp [TitleAnchor, hasSpanWithId, hasSpanWithIdL, List.lookup]
  · intro toHref id
    constructor <;>
      simp [TitleAnchor, containsElem, containsElemL]

/-- Witness for C4: with values at both scopes the concrete tag wins, and
the no-click anchor carries no clickable link element. -/
theorem claim_C4_witness :
    jsNullish (ctxBoth.macroStore.check "h2" "no-link")
      (ctxBoth.macroStore.check "heading" "no-link") = some "tagval" ∧
    containsElem "a" (TitleAnchor "#sec" "sec" true) = false := by
  have h := claim_C4_heading_macro_flags e0 o0 ctxBoth nodeH2 []
  exact ⟨h.1 "no-link" "tagval" rfl, (h.2.2.2.2.2.2 "#sec" "sec").1⟩
